import Mathlib

/-!
Verification of the ArbOS execution-layer fragment: chain data model,
transaction envelope codec, the ArbSys system-information precompile and the
ArbRetryableTx retryable-ticket precompile.

Shallow embedding conventions:
* `Uint`, `U64`, `U256` from the primitive-type library are arbitrary-precision
  unsigned integers in the Python sources (Python `int` subclasses); claims here
  perform no modular arithmetic on them, so they are embedded as `Nat`.
* `Bytes`, `Bytes32`, `Address`, `Hash32`, `VersionedHash` are byte strings,
  embedded as `List Nat` (each element a byte value).
* Fallible Python code (raising exceptions) is embedded as `Except`.
-/

namespace ArbOS

abbrev Uint := Nat

abbrev U64 := Nat

abbrev U256 := Nat

abbrev Bytes := List Nat

abbrev Bytes32 := List Nat

abbrev Address := List Nat

abbrev Hash32 := List Nat

abbrev VersionedHash := List Nat

/-- An access list entry: an address paired with a sequence of storage keys
(`Tuple[Address, Tuple[Bytes32, ...]]` in transactions.py). -/
abbrev AccessListEntry := Address × List Bytes32

/-! ### Gas-pricing constants (transactions.py lines 22-27) -/

def TX_BASE_COST : Nat := 21000

def TX_DATA_COST_PER_NON_ZERO : Nat := 16

def TX_DATA_COST_PER_ZERO : Nat := 4

def TX_CREATE_COST : Nat := 32000

def TX_ACCESS_LIST_ADDRESS_COST : Nat := 2400

def TX_ACCESS_LIST_STORAGE_KEY_COST : Nat := 1900

/-! ### L1 message-type constants (blocks.py lines 108-117) -/

def L1MessageType_L2Message : Nat := 3

def L1MessageType_EndOfBlock : Nat := 6

def L1MessageType_L2FundedByL1 : Nat := 7

def L1MessageType_RollupEvent : Nat := 8

def L1MessageType_SubmitRetryable : Nat := 9

def L1MessageType_BatchForGasEstimation : Nat := 10

def L1MessageType_Initialize : Nat := 11

def L1MessageType_EthDeposit : Nat := 12

def L1MessageType_BatchPostingReport : Nat := 13

def L1MessageType_Invalid : Nat := 0xFF

/-! ### Transaction variants (transactions.py lines 30-226) -/

/-- `LegacyTransaction` (transactions.py lines 30-45). -/
structure LegacyTransaction where
  nonce : U256
  gas_price : Uint
  gas : Uint
  «to» : Bytes
  value : U256
  data : Bytes
  v : U256
  r : U256
  s : U256
deriving DecidableEq, Repr

/-- `AccessListTransaction` (EIP-2930; transactions.py lines 48-65). -/
structure AccessListTransaction where
  chain_id : U64
  nonce : U256
  gas_price : Uint
  gas : Uint
  «to» : Bytes
  value : U256
  data : Bytes
  access_list : List AccessListEntry
  y_parity : U256
  r : U256
  s : U256
deriving DecidableEq, Repr

/-- `FeeMarketTransaction` (EIP-1559; transactions.py lines 68-86). -/
structure FeeMarketTransaction where
  chain_id : U64
  nonce : U256
  max_priority_fee_per_gas : Uint
  max_fee_per_gas : Uint
  gas : Uint
  «to» : Bytes
  value : U256
  data : Bytes
  access_list : List AccessListEntry
  y_parity : U256
  r : U256
  s : U256
deriving DecidableEq, Repr

/-- `BlobTransaction` (EIP-4844; transactions.py lines 89-109). -/
structure BlobTransaction where
  chain_id : U64
  nonce : U256
  max_priority_fee_per_gas : Uint
  max_fee_per_gas : Uint
  gas : Uint
  «to» : Address
  value : U256
  data : Bytes
  access_list : List AccessListEntry
  max_fee_per_blob_gas : U256
  blob_versioned_hashes : List VersionedHash
  y_parity : U256
  r : U256
  s : U256
deriving DecidableEq, Repr

/-- `ArbitrumUnsignedTransaction` (transactions.py lines 111-127). -/
structure ArbitrumUnsignedTransaction where
  chain_id : U64
  from_ : Address
  nonce : U256
  gas_fee_cap : U256
  gas : Uint
  «to» : Address
  value : U256
  data : Bytes
deriving DecidableEq, Repr

/-- `ArbitrumContractTransaction` (transactions.py lines 129-145). -/
structure ArbitrumContractTransaction where
  chain_id : U64
  request_id : Bytes
  from_ : Address
  gas_fee_cap : U256
  gas : Uint
  «to» : Address
  value : U256
  data : Bytes
deriving DecidableEq, Repr

/-- `ArbitrumRetryTransaction` (transactions.py lines 147-168). -/
structure ArbitrumRetryTransaction where
  chain_id : U64
  nonce : U256
  from_ : Address
  gas_fee_cap : U256
  gas : Uint
  «to» : Address
  value : U256
  data : Bytes
  ticket_id : U256
  refund_to : Address
  max_refund : U256
  submission_fee_refund : U256
deriving DecidableEq, Repr

/-- `ArbitrumSubmitRetryTransaction` (transactions.py lines 170-191). -/
structure ArbitrumSubmitRetryTransaction where
  chain_id : U64
  request_id : Bytes
  from_ : Address
  l1_base_fee : U256
  deposit_value : U256
  gas_fee_cap : U256
  gas : Uint
  retry_to : Address
  retry_value : U256
  beneficiary : Address
  max_submission_fee : U256
  fee_refund_address : Address
  retry_data : Bytes
deriving DecidableEq, Repr

/-- `ArbitrumDepositTransaction` (transactions.py lines 193-204). -/
structure ArbitrumDepositTransaction where
  chain_id : U64
  l1_request_id : Bytes
  from_ : Address
  «to» : Address
  value : U256
deriving DecidableEq, Repr

/-- `ArbitrumInternalTransaction` (transactions.py lines 206-213). -/
structure ArbitrumInternalTransaction where
  chain_id : U64
  data : Bytes
deriving DecidableEq, Repr

/-- The closed sum type `Transaction` (transactions.py lines 215-226). -/
inductive Transaction where
  | legacy : LegacyTransaction → Transaction
  | accessList : AccessListTransaction → Transaction
  | feeMarket : FeeMarketTransaction → Transaction
  | blob : BlobTransaction → Transaction
  | arbUnsigned : ArbitrumUnsignedTransaction → Transaction
  | arbContract : ArbitrumContractTransaction → Transaction
  | arbRetry : ArbitrumRetryTransaction → Transaction
  | arbSubmitRetry : ArbitrumSubmitRetryTransaction → Transaction
  | arbDeposit : ArbitrumDepositTransaction → Transaction
  | arbInternal : ArbitrumInternalTransaction → Transaction
deriving DecidableEq, Repr

/-! ### RLP serialization model

Modelled from the spec: transactions.py calls `rlp.encode` and `rlp.decode_to`
from `ethereum/rlp.py`, which is repository code not present in this excerpt.
The spec describes it only as "an RLP (or equivalent canonical binary)
encoder/decoder capable of serializing the field-ordered structures in §3 and
reconstructing them given a target shape". The model below realizes that
contract: every field of a variant is serialized in declaration order into a
flat sequence of naturals (scalars directly, byte strings and nested sequences
length-counted), and each `decode_to` model parses that sequence back into the
target shape, failing on malformed or trailing input. -/

/-- Modelled from the spec: serialization of one scalar field (`Uint`, `U64`,
`U256`) inside an RLP payload. -/
def encNat (n : Nat) : List Nat := [n]

/-- Modelled from the spec: serialization of one byte-string field
(`Bytes`, `Bytes32`, `Address`) inside an RLP payload, length-counted. -/
def encBytes (b : List Nat) : List Nat := b.length :: b

/-- Modelled from the spec: serialization of the elements of a sequence field,
one after the other. -/
def encSeq {α : Type} (f : α → List Nat) : List α → List Nat
  | [] => []
  | x :: xs => f x ++ encSeq f xs

/-- Modelled from the spec: serialization of a sequence field, length-counted. -/
def encCounted {α : Type} (f : α → List Nat) (xs : List α) : List Nat :=
  xs.length :: encSeq f xs

/-- Modelled from the spec: serialization of one access-list entry, an address
paired with a sequence of storage keys. -/
def encAccessEntry (e : AccessListEntry) : List Nat :=
  encBytes e.1 ++ encCounted encBytes e.2

/-- Modelled from the spec: parse one scalar field, returning it together with
the unconsumed remainder. -/
def decNat : List Nat → Option (Nat × List Nat)
  | [] => none
  | n :: rest => some (n, rest)

/-- Modelled from the spec: parse one length-counted byte-string field. -/
def decBytes : List Nat → Option (List Nat × List Nat)
  | [] => none
  | n :: rest =>
    if n ≤ rest.length then some (rest.take n, rest.drop n) else none

/-- Modelled from the spec: parse exactly `n` consecutive elements with `g`. -/
def decCount {α : Type} (g : List Nat → Option (α × List Nat)) :
    Nat → List Nat → Option (List α × List Nat)
  | 0, s => some ([], s)
  | n + 1, s =>
    match g s with
    | none => none
    | some (x, s2) =>
      match decCount g n s2 with
      | none => none
      | some (xs, s3) => some (x :: xs, s3)

/-- Modelled from the spec: parse one length-counted sequence field. -/
def decCounted {α : Type} (g : List Nat → Option (α × List Nat))
    (s : List Nat) : Option (List α × List Nat) :=
  match s with
  | [] => none
  | n :: rest => decCount g n rest

/-- Modelled from the spec: parse one access-list entry. -/
def decAccessEntry (s : List Nat) : Option (AccessListEntry × List Nat) :=
  match decBytes s with
  | none => none
  | some (a, s2) =>
    match decCounted decBytes s2 with
    | none => none
    | some (keys, s3) => some ((a, keys), s3)

/-! ### Inversion framework for the RLP model

`Inverts f p` states that the parser `p` consumes exactly the output of the
serializer `f` and returns the serialized value together with the unconsumed
remainder; field parsers compose pairwise. -/

/-- Parser `p` inverts serializer `f` on any prefix of a stream. -/
def Inverts {α : Type} (f : α → List Nat)
    (p : List Nat → Option (α × List Nat)) : Prop :=
  ∀ x rest, p (f x ++ rest) = some (x, rest)

/-- Modelled from the spec: serialization of two consecutive fields. -/
def encPair {α β : Type} (f : α → List Nat) (g : β → List Nat)
    (x : α × β) : List Nat :=
  f x.1 ++ g x.2

/-- Modelled from the spec: parsing of two consecutive fields. -/
def decPair {α β : Type} (p : List Nat → Option (α × List Nat))
    (q : List Nat → Option (β × List Nat))
    (s : List Nat) : Option ((α × β) × List Nat) :=
  match p s with
  | none => none
  | some (a, s2) =>
    match q s2 with
    | none => none
    | some (b, s3) => some ((a, b), s3)

/-! ### Per-variant RLP payload codecs

Modelled from the spec: each variant's `rlp.encode` serializes its fields in
declaration order, and each `rlp.decode_to(Class, payload)` parses the fields
back in the same order, failing on malformed or trailing input. -/

/-- The fields of an `AccessListTransaction` in declaration order. -/
def accessListTxToFields (t : AccessListTransaction) :
    U64 × U256 × Uint × Uint × Bytes × U256 × Bytes × List AccessListEntry ×
      U256 × U256 × U256 :=
  (t.chain_id, t.nonce, t.gas_price, t.gas, t.to, t.value, t.data,
    t.access_list, t.y_parity, t.r, t.s)

/-- Rebuild an `AccessListTransaction` from its fields in declaration order. -/
def accessListTxOfFields :
    U64 × U256 × Uint × Uint × Bytes × U256 × Bytes × List AccessListEntry ×
      U256 × U256 × U256 → AccessListTransaction :=
  fun (c, n, gp, g, to_, v, d, al, y, r, sv) =>
    ⟨c, n, gp, g, to_, v, d, al, y, r, sv⟩

/-- Modelled from the spec: field-order serializer for `AccessListTransaction`. -/
def encAccessListTxFields :=
  encPair encNat (encPair encNat (encPair encNat (encPair encNat
    (encPair encBytes (encPair encNat (encPair encBytes
      (encPair (encCounted encAccessEntry) (encPair encNat
        (encPair encNat encNat)))))))))

/-- Modelled from the spec: field-order parser for `AccessListTransaction`. -/
def decAccessListTxFields :=
  decPair decNat (decPair decNat (decPair decNat (decPair decNat
    (decPair decBytes (decPair decNat (decPair decBytes
      (decPair (decCounted decAccessEntry) (decPair decNat
        (decPair decNat decNat)))))))))

/-- Modelled from the spec: `rlp.encode` on an `AccessListTransaction`. -/
def rlpEncodeAccessListTx (t : AccessListTransaction) : List Nat :=
  encAccessListTxFields (accessListTxToFields t)

/-- Modelled from the spec: `rlp.decode_to(AccessListTransaction, ...)`. -/
def rlpDecodeAccessListTx (s : List Nat) : Option AccessListTransaction :=
  match decAccessListTxFields s with
  | some (fields, []) => some (accessListTxOfFields fields)
  | _ => none

/-- The fields of a `FeeMarketTransaction` in declaration order. -/
def feeMarketTxToFields (t : FeeMarketTransaction) :
    U64 × U256 × Uint × Uint × Uint × Bytes × U256 × Bytes ×
      List AccessListEntry × U256 × U256 × U256 :=
  (t.chain_id, t.nonce, t.max_priority_fee_per_gas, t.max_fee_per_gas, t.gas,
    t.to, t.value, t.data, t.access_list, t.y_parity, t.r, t.s)

/-- Rebuild a `FeeMarketTransaction` from its fields in declaration order. -/
def feeMarketTxOfFields :
    U64 × U256 × Uint × Uint × Uint × Bytes × U256 × Bytes ×
      List AccessListEntry × U256 × U256 × U256 → FeeMarketTransaction :=
  fun (c, n, mp, mf, g, to_, v, d, al, y, r, sv) =>
    ⟨c, n, mp, mf, g, to_, v, d, al, y, r, sv⟩

/-- Modelled from the spec: field-order serializer for `FeeMarketTransaction`. -/
def encFeeMarketTxFields :=
  encPair encNat (encPair encNat (encPair encNat (encPair encNat
    (encPair encNat (encPair encBytes (encPair encNat (encPair encBytes
      (encPair (encCounted encAccessEntry) (encPair encNat
        (encPair encNat encNat))))))))))

/-- Modelled from the spec: field-order parser for `FeeMarketTransaction`. -/
def decFeeMarketTxFields :=
  decPair decNat (decPair decNat (decPair decNat (decPair decNat
    (decPair decNat (decPair decBytes (decPair decNat (decPair decBytes
      (decPair (decCounted decAccessEntry) (decPair decNat
        (decPair decNat decNat))))))))))

/-- Modelled from the spec: `rlp.encode` on a `FeeMarketTransaction`. -/
def rlpEncodeFeeMarketTx (t : FeeMarketTransaction) : List Nat :=
  encFeeMarketTxFields (feeMarketTxToFields t)

/-- Modelled from the spec: `rlp.decode_to(FeeMarketTransaction, ...)`. -/
def rlpDecodeFeeMarketTx (s : List Nat) : Option FeeMarketTransaction :=
  match decFeeMarketTxFields s with
  | some (fields, []) => some (feeMarketTxOfFields fields)
  | _ => none

/-- The fields of a `BlobTransaction` in declaration order. -/
def blobTxToFields (t : BlobTransaction) :
    U64 × U256 × Uint × Uint × Uint × Address × U256 × Bytes ×
      List AccessListEntry × U256 × List VersionedHash × U256 × U256 × U256 :=
  (t.chain_id, t.nonce, t.max_priority_fee_per_gas, t.max_fee_per_gas, t.gas,
    t.to, t.value, t.data, t.access_list, t.max_fee_per_blob_gas,
    t.blob_versioned_hashes, t.y_parity, t.r, t.s)

/-- Rebuild a `BlobTransaction` from its fields in declaration order. -/
def blobTxOfFields :
    U64 × U256 × Uint × Uint × Uint × Address × U256 × Bytes ×
      List AccessListEntry × U256 × List VersionedHash × U256 × U256 × U256 →
      BlobTransaction :=
  fun (c, n, mp, mf, g, to_, v, d, al, bf, bh, y, r, sv) =>
    ⟨c, n, mp, mf, g, to_, v, d, al, bf, bh, y, r, sv⟩

/-- Modelled from the spec: field-order serializer for `BlobTransaction`. -/
def encBlobTxFields :=
  encPair encNat (encPair encNat (encPair encNat (encPair encNat
    (encPair encNat (encPair encBytes (encPair encNat (encPair encBytes
      (encPair (encCounted encAccessEntry) (encPair encNat
        (encPair (encCounted encBytes) (encPair encNat
          (encPair encNat encNat))))))))))))

/-- Modelled from the spec: field-order parser for `BlobTransaction`. -/
def decBlobTxFields :=
  decPair decNat (decPair decNat (decPair decNat (decPair decNat
    (decPair decNat (decPair decBytes (decPair decNat (decPair decBytes
      (decPair (decCounted decAccessEntry) (decPair decNat
        (decPair (decCounted decBytes) (decPair decNat
          (decPair decNat decNat))))))))))))

/-- Modelled from the spec: `rlp.encode` on a `BlobTransaction`. -/
def rlpEncodeBlobTx (t : BlobTransaction) : List Nat :=
  encBlobTxFields (blobTxToFields t)

/-- Modelled from the spec: `rlp.decode_to(BlobTransaction, ...)`. -/
def rlpDecodeBlobTx (s : List Nat) : Option BlobTransaction :=
  match decBlobTxFields s with
  | some (fields, []) => some (blobTxOfFields fields)
  | _ => none

/-- The fields of an `ArbitrumUnsignedTransaction` in declaration order. -/
def arbUnsignedTxToFields (t : ArbitrumUnsignedTransaction) :
    U64 × Address × U256 × U256 × Uint × Address × U256 × Bytes :=
  (t.chain_id, t.from_, t.nonce, t.gas_fee_cap, t.gas, t.to, t.value, t.data)

/-- Rebuild an `ArbitrumUnsignedTransaction` from its fields. -/
def arbUnsignedTxOfFields :
    U64 × Address × U256 × U256 × Uint × Address × U256 × Bytes →
      ArbitrumUnsignedTransaction :=
  fun (c, f, n, cap, g, to_, v, d) => ⟨c, f, n, cap, g, to_, v, d⟩

/-- Modelled from the spec: field-order serializer for
`ArbitrumUnsignedTransaction`. -/
def encArbUnsignedTxFields :=
  encPair encNat (encPair encBytes (encPair encNat (encPair encNat
    (encPair encNat (encPair encBytes (encPair encNat encBytes))))))

/-- Modelled from the spec: field-order parser for
`ArbitrumUnsignedTransaction`. -/
def decArbUnsignedTxFields :=
  decPair decNat (decPair decBytes (decPair decNat (decPair decNat
    (decPair decNat (decPair decBytes (decPair decNat decBytes))))))

/-- Modelled from the spec: `rlp.encode` on an `ArbitrumUnsignedTransaction`. -/
def rlpEncodeArbUnsignedTx (t : ArbitrumUnsignedTransaction) : List Nat :=
  encArbUnsignedTxFields (arbUnsignedTxToFields t)

/-- Modelled from the spec: `rlp.decode_to(ArbitrumUnsignedTransaction, ...)`. -/
def rlpDecodeArbUnsignedTx (s : List Nat) : Option ArbitrumUnsignedTransaction :=
  match decArbUnsignedTxFields s with
  | some (fields, []) => some (arbUnsignedTxOfFields fields)
  | _ => none

/-- The fields of an `ArbitrumContractTransaction` in declaration order. -/
def arbContractTxToFields (t : ArbitrumContractTransaction) :
    U64 × Bytes × Address × U256 × Uint × Address × U256 × Bytes :=
  (t.chain_id, t.request_id, t.from_, t.gas_fee_cap, t.gas, t.to, t.value,
    t.data)

/-- Rebuild an `ArbitrumContractTransaction` from its fields. -/
def arbContractTxOfFields :
    U64 × Bytes × Address × U256 × Uint × Address × U256 × Bytes →
      ArbitrumContractTransaction :=
  fun (c, rq, f, cap, g, to_, v, d) => ⟨c, rq, f, cap, g, to_, v, d⟩

/-- Modelled from the spec: field-order serializer for
`ArbitrumContractTransaction`. -/
def encArbContractTxFields :=
  encPair encNat (encPair encBytes (encPair encBytes (encPair encNat
    (encPair encNat (encPair encBytes (encPair encNat encBytes))))))

/-- Modelled from the spec: field-order parser for
`ArbitrumContractTransaction`. -/
def decArbContractTxFields :=
  decPair decNat (decPair decBytes (decPair decBytes (decPair decNat
    (decPair decNat (decPair decBytes (decPair decNat decBytes))))))

/-- Modelled from the spec: `rlp.encode` on an `ArbitrumContractTransaction`. -/
def rlpEncodeArbContractTx (t : ArbitrumContractTransaction) : List Nat :=
  encArbContractTxFields (arbContractTxToFields t)

/-- Modelled from the spec: `rlp.decode_to(ArbitrumContractTransaction, ...)`. -/
def rlpDecodeArbContractTx (s : List Nat) : Option ArbitrumContractTransaction :=
  match decArbContractTxFields s with
  | some (fields, []) => some (arbContractTxOfFields fields)
  | _ => none

/-- The fields of an `ArbitrumRetryTransaction` in declaration order. -/
def arbRetryTxToFields (t : ArbitrumRetryTransaction) :
    U64 × U256 × Address × U256 × Uint × Address × U256 × Bytes × U256 ×
      Address × U256 × U256 :=
  (t.chain_id, t.nonce, t.from_, t.gas_fee_cap, t.gas, t.to, t.value, t.data,
    t.ticket_id, t.refund_to, t.max_refund, t.submission_fee_refund)

/-- Rebuild an `ArbitrumRetryTransaction` from its fields. -/
def arbRetryTxOfFields :
    U64 × U256 × Address × U256 × Uint × Address × U256 × Bytes × U256 ×
      Address × U256 × U256 → ArbitrumRetryTransaction :=
  fun (c, n, f, cap, g, to_, v, d, tid, rt, mr, sfr) =>
    ⟨c, n, f, cap, g, to_, v, d, tid, rt, mr, sfr⟩

/-- Modelled from the spec: field-order serializer for
`ArbitrumRetryTransaction`. -/
def encArbRetryTxFields :=
  encPair encNat (encPair encNat (encPair encBytes (encPair encNat
    (encPair encNat (encPair encBytes (encPair encNat (encPair encBytes
      (encPair encNat (encPair encBytes (encPair encNat encNat))))))))))

/-- Modelled from the spec: field-order parser for
`ArbitrumRetryTransaction`. -/
def decArbRetryTxFields :=
  decPair decNat (decPair decNat (decPair decBytes (decPair decNat
    (decPair decNat (decPair decBytes (decPair decNat (decPair decBytes
      (decPair decNat (decPair decBytes (decPair decNat decNat))))))))))

/-- Modelled from the spec: `rlp.encode` on an `ArbitrumRetryTransaction`. -/
def rlpEncodeArbRetryTx (t : ArbitrumRetryTransaction) : List Nat :=
  encArbRetryTxFields (arbRetryTxToFields t)

/-- Modelled from the spec: `rlp.decode_to(ArbitrumRetryTransaction, ...)`. -/
def rlpDecodeArbRetryTx (s : List Nat) : Option ArbitrumRetryTransaction :=
  match decArbRetryTxFields s with
  | some (fields, []) => some (arbRetryTxOfFields fields)
  | _ => none

/-- The fields of an `ArbitrumSubmitRetryTransaction` in declaration order. -/
def arbSubmitRetryTxToFields (t : ArbitrumSubmitRetryTransaction) :
    U64 × Bytes × Address × U256 × U256 × U256 × Uint × Address × U256 ×
      Address × U256 × Address × Bytes :=
  (t.chain_id, t.request_id, t.from_, t.l1_base_fee, t.deposit_value,
    t.gas_fee_cap, t.gas, t.retry_to, t.retry_value, t.beneficiary,
    t.max_submission_fee, t.fee_refund_address, t.retry_data)

/-- Rebuild an `ArbitrumSubmitRetryTransaction` from its fields. -/
def arbSubmitRetryTxOfFields :
    U64 × Bytes × Address × U256 × U256 × U256 × Uint × Address × U256 ×
      Address × U256 × Address × Bytes → ArbitrumSubmitRetryTransaction :=
  fun (c, rq, f, l1, dv, cap, g, rto, rv, b, msf, fra, rd) =>
    ⟨c, rq, f, l1, dv, cap, g, rto, rv, b, msf, fra, rd⟩

/-- Modelled from the spec: field-order serializer for
`ArbitrumSubmitRetryTransaction`. -/
def encArbSubmitRetryTxFields :=
  encPair encNat (encPair encBytes (encPair encBytes (encPair encNat
    (encPair encNat (encPair encNat (encPair encNat (encPair encBytes
      (encPair encNat (encPair encBytes (encPair encNat
        (encPair encBytes encBytes)))))))))))

/-- Modelled from the spec: field-order parser for
`ArbitrumSubmitRetryTransaction`. -/
def decArbSubmitRetryTxFields :=
  decPair decNat (decPair decBytes (decPair decBytes (decPair decNat
    (decPair decNat (decPair decNat (decPair decNat (decPair decBytes
      (decPair decNat (decPair decBytes (decPair decNat
        (decPair decBytes decBytes)))))))))))

/-- Modelled from the spec: `rlp.encode` on an
`ArbitrumSubmitRetryTransaction`. -/
def rlpEncodeArbSubmitRetryTx (t : ArbitrumSubmitRetryTransaction) : List Nat :=
  encArbSubmitRetryTxFields (arbSubmitRetryTxToFields t)

/-- Modelled from the spec:
`rlp.decode_to(ArbitrumSubmitRetryTransaction, ...)`. -/
def rlpDecodeArbSubmitRetryTx (s : List Nat) :
    Option ArbitrumSubmitRetryTransaction :=
  match decArbSubmitRetryTxFields s with
  | some (fields, []) => some (arbSubmitRetryTxOfFields fields)
  | _ => none

/-- The fields of an `ArbitrumDepositTransaction` in declaration order. -/
def arbDepositTxToFields (t : ArbitrumDepositTransaction) :
    U64 × Bytes × Address × Address × U256 :=
  (t.chain_id, t.l1_request_id, t.from_, t.to, t.value)

/-- Rebuild an `ArbitrumDepositTransaction` from its fields. -/
def arbDepositTxOfFields :
    U64 × Bytes × Address × Address × U256 → ArbitrumDepositTransaction :=
  fun (c, rq, f, to_, v) => ⟨c, rq, f, to_, v⟩

/-- Modelled from the spec: field-order serializer for
`ArbitrumDepositTransaction`. -/
def encArbDepositTxFields :=
  encPair encNat (encPair encBytes (encPair encBytes (encPair encBytes encNat)))

/-- Modelled from the spec: field-order parser for
`ArbitrumDepositTransaction`. -/
def decArbDepositTxFields :=
  decPair decNat (decPair decBytes (decPair decBytes (decPair decBytes decNat)))

/-- Modelled from the spec: `rlp.encode` on an `ArbitrumDepositTransaction`. -/
def rlpEncodeArbDepositTx (t : ArbitrumDepositTransaction) : List Nat :=
  encArbDepositTxFields (arbDepositTxToFields t)

/-- Modelled from the spec: `rlp.decode_to(ArbitrumDepositTransaction, ...)`. -/
def rlpDecodeArbDepositTx (s : List Nat) : Option ArbitrumDepositTransaction :=
  match decArbDepositTxFields s with
  | some (fields, []) => some (arbDepositTxOfFields fields)
  | _ => none

/-- The fields of an `ArbitrumInternalTransaction` in declaration order. -/
def arbInternalTxToFields (t : ArbitrumInternalTransaction) : U64 × Bytes :=
  (t.chain_id, t.data)

/-- Rebuild an `ArbitrumInternalTransaction` from its fields. -/
def arbInternalTxOfFields : U64 × Bytes → ArbitrumInternalTransaction :=
  fun (c, d) => ⟨c, d⟩

/-- Modelled from the spec: field-order serializer for
`ArbitrumInternalTransaction`. -/
def encArbInternalTxFields :=
  encPair encNat encBytes

/-- Modelled from the spec: field-order parser for
`ArbitrumInternalTransaction`. -/
def decArbInternalTxFields :=
  decPair decNat decBytes

/-- Modelled from the spec: `rlp.encode` on an `ArbitrumInternalTransaction`. -/
def rlpEncodeArbInternalTx (t : ArbitrumInternalTransaction) : List Nat :=
  encArbInternalTxFields (arbInternalTxToFields t)

/-- Modelled from the spec: `rlp.decode_to(ArbitrumInternalTransaction, ...)`. -/
def rlpDecodeArbInternalTx (s : List Nat) : Option ArbitrumInternalTransaction :=
  match decArbInternalTxFields s with
  | some (fields, []) => some (arbInternalTxOfFields fields)
  | _ => none

/-! ### Transaction envelope codec (transactions.py lines 229-284) -/

/-- The wire form of a transaction: `Union[LegacyTransaction, Bytes]`
(transactions.py lines 229 and 258). -/
inductive EncodedTx where
  | legacy : LegacyTransaction → EncodedTx
  | bytes : List Nat → EncodedTx
deriving DecidableEq, Repr

/-- Error outcomes of `decode_transaction`: the unguarded `tx[0]` on an empty
byte string raises Python `IndexError`; an unknown leading byte raises
`InvalidBlock` (transactions.py line 282); a failure inside `rlp.decode_to`
raises the RLP library's own decoding error (modelled). -/
inductive DecodeErrorKind where
  | indexOutOfRange
  | invalidBlock
  | rlpDecoding
deriving DecidableEq, Repr

/-- Lift the result of an `rlp.decode_to` model into `decode_transaction`'s
result: a parse failure propagates as the RLP decoding error. -/
def liftDecoded {α : Type} (f : α → Transaction) :
    Option α → Except DecodeErrorKind Transaction
  | some x => .ok (f x)
  | none => .error .rlpDecoding

/-- `encode_transaction` (transactions.py lines 229-255): a legacy transaction
encodes to itself; every other variant encodes to its type identifier byte
followed by the RLP encoding of its fields. -/
def encode_transaction : Transaction → EncodedTx
  | .legacy t => .legacy t
  | .accessList t => .bytes (0x01 :: rlpEncodeAccessListTx t)
  | .feeMarket t => .bytes (0x02 :: rlpEncodeFeeMarketTx t)
  | .blob t => .bytes (0x03 :: rlpEncodeBlobTx t)
  | .arbDeposit t => .bytes (0x64 :: rlpEncodeArbDepositTx t)
  | .arbUnsigned t => .bytes (0x65 :: rlpEncodeArbUnsignedTx t)
  | .arbContract t => .bytes (0x66 :: rlpEncodeArbContractTx t)
  | .arbRetry t => .bytes (0x68 :: rlpEncodeArbRetryTx t)
  | .arbSubmitRetry t => .bytes (0x69 :: rlpEncodeArbSubmitRetryTx t)
  | .arbInternal t => .bytes (0x6A :: rlpEncodeArbInternalTx t)

/-- `decode_transaction` (transactions.py lines 258-284): a byte string is
dispatched on its first byte to the RLP decoder of the matching variant; an
unknown first byte raises `InvalidBlock`; an empty byte string hits the
unguarded `tx[0]` and raises `IndexError`; a structured legacy value is
returned unchanged. -/
def decode_transaction : EncodedTx → Except DecodeErrorKind Transaction
  | .bytes tx =>
    match tx with
    | [] => .error .indexOutOfRange
    | b :: rest =>
      if b = 0x01 then
        liftDecoded Transaction.accessList (rlpDecodeAccessListTx rest)
      else if b = 0x02 then
        liftDecoded Transaction.feeMarket (rlpDecodeFeeMarketTx rest)
      else if b = 0x03 then
        liftDecoded Transaction.blob (rlpDecodeBlobTx rest)
      else if b = 0x64 then
        liftDecoded Transaction.arbDeposit (rlpDecodeArbDepositTx rest)
      else if b = 0x65 then
        liftDecoded Transaction.arbUnsigned (rlpDecodeArbUnsignedTx rest)
      else if b = 0x66 then
        liftDecoded Transaction.arbContract (rlpDecodeArbContractTx rest)
      else if b = 0x68 then
        liftDecoded Transaction.arbRetry (rlpDecodeArbRetryTx rest)
      else if b = 0x69 then
        liftDecoded Transaction.arbSubmitRetry (rlpDecodeArbSubmitRetryTx rest)
      else if b = 0x6A then
        liftDecoded Transaction.arbInternal (rlpDecodeArbInternalTx rest)
      else .error .invalidBlock
  | .legacy t => .ok (.legacy t)

/-- A runtime value reaching `encode_transaction`: Python is dynamically
typed, so the argument is either an instance of one of the ten `Transaction`
classes or some other value, for which the `isinstance` chain falls through
to the final `else` branch (transactions.py lines 254-255). -/
inductive PyTxValue where
  | tx : Transaction → PyTxValue
  | nonTransactionValue : PyTxValue

/-- The exception raised by `encode_transaction`'s final `else` branch
("Unable to encode transaction of type ..."). -/
inductive EncodeErrorKind where
  | unsupportedTransactionType
deriving DecidableEq, Repr

/-- `encode_transaction` seen with its dynamically-typed failure branch: a
value of one of the ten variants is handled by its `isinstance` branch, any
other runtime value raises the unsupported-transaction-type exception. -/
def encode_transaction_py : PyTxValue → Except EncodeErrorKind EncodedTx
  | .tx t => .ok (encode_transaction t)
  | .nonTransactionValue => .error .unsupportedTransactionType

/-! ### ArbSys precompile (arb_sys.py) -/

/-- The execution environment reachable through `evm.env` in arb_sys.py:
current block number, configured chain id, configured ArbOS version, and the
historical block-hash lookup of the chain state. -/
structure Env where
  number : Uint
  chain_id : U256
  arb_version : U256
  block_hash : Int → Hash32

/-- The EVM state handed to each precompiled contract (`Evm` in arb_sys.py). -/
structure Evm where
  env : Env

/-- The error raised by `arb_block_hash` on an out-of-window lookup:
`ValueError("Invalid block number")` in the source, the "invalid input"
error kind of the spec. -/
inductive SysCallError where
  | invalidInput
deriving DecidableEq, Repr

/-- `arb_block_number` (arb_sys.py lines 24-25): returns the current L2 block
number. The Python body only reads `evm`; in state-passing style the returned
environment is therefore the unchanged input. -/
def arb_block_number (evm : Evm) : Uint × Evm :=
  (evm.env.number, evm)

/-- `arb_block_hash` (arb_sys.py lines 29-34): returns the hash of a past
block, unless `block_number >= current_block_number or block_number <
current_block_number - 256`. Python integer arithmetic is unbounded and
signed, so the comparison is over `Int`. -/
def arb_block_hash (evm : Evm) (block_number : Int) :
    Except SysCallError (Hash32 × Evm) :=
  if block_number ≥ (evm.env.number : Int) ∨
      block_number < (evm.env.number : Int) - 256 then
    .error .invalidInput
  else
    .ok (evm.env.block_hash block_number, evm)

/-- `arb_chain_id` (arb_sys.py lines 38-39): returns the configured chain id,
reading `evm` only. -/
def arb_chain_id (evm : Evm) : U256 × Evm :=
  (evm.env.chain_id, evm)

/-- `arb_version` (arb_sys.py lines 42-43): returns the configured ArbOS
version, reading `evm` only. -/
def arb_version (evm : Evm) : U256 × Evm :=
  (evm.env.arb_version, evm)

/-! ### ArbRetryableTx precompile (arb_retryable_tx.py) -/

/-- Modelled from the spec: one outstanding retryable ticket in the external
ticket store (spec §4.4), keeping the ticket's encoded retry payload, its
expiry timestamp and its beneficiary address. The store itself is absent from
this excerpt. -/
structure RetryableTicket where
  payload : Bytes
  timeout : Uint
  beneficiary : Address
deriving DecidableEq, Repr

/-- Modelled from the spec: the retryable-ticket configuration. The numeric
value of the default lifetime period is deliberately not fixed by the excerpt
(spec §9), so it is a parameter here. -/
structure RetryableCtx where
  lifetime : Uint
deriving DecidableEq, Repr

/-- Error outcomes of the ticket operations modelled here: "not found" for an
absent ticket and "invalid ticket" for a stored payload of zero size
(spec §7). -/
inductive RetryableError where
  | notFound
  | invalidTicket
deriving DecidableEq, Repr

/-- Modelled from the spec: `get_lifetime` (arb_retryable_tx.py lines 40-42)
has no executable body; its prose step is "Return the default lifetime for a
retryable ticket". -/
def get_lifetime (ctx : RetryableCtx) : Uint :=
  ctx.lifetime

/-- Modelled from the spec: `keep_alive` (arb_retryable_tx.py lines 49-58)
has no executable body; its header comment reads "keep alive adds one life
time period to the ticket's expiry". Following those prose steps and spec
§4.4, §7 and §8.7: look the ticket up, failing with "not found" when absent;
fail with "invalid ticket" when the stored payload's byte size is zero;
otherwise persist and return the expiry increased by one default-lifetime
period. The size-proportional gas charge is omitted: its cost formula is
explicitly left unspecified by the spec (§9) and does not affect the expiry. -/
def keep_alive (ctx : RetryableCtx) (store : Hash32 → Option RetryableTicket)
    (ticket_id : Hash32) :
    Except RetryableError (Uint × (Hash32 → Option RetryableTicket)) :=
  match store ticket_id with
  | none => .error .notFound
  | some t =>
    if t.payload.length = 0 then .error .invalidTicket
    else
      .ok (t.timeout + get_lifetime ctx,
        fun i =>
          if i = ticket_id then
            some ⟨t.payload, t.timeout + get_lifetime ctx, t.beneficiary⟩
          else store i)

/-! ### Concrete sample values used by witnesses -/

/-- An execution state whose current block number is 1000. -/
def sampleEvm1000 : Evm :=
  ⟨⟨1000, 412346, 11, fun _ => []⟩⟩

/-- A sample outstanding ticket: one payload byte, expiry 100. -/
def sampleTicket : RetryableTicket :=
  ⟨[1], 100, [2]⟩

/-- A sample ticket store holding only `sampleTicket` under id `[7]`. -/
def sampleStore : Hash32 → Option RetryableTicket :=
  fun i => if i = [7] then some sampleTicket else none

/-- A sample configuration whose default ticket lifetime is one week. -/
def sampleCtx : RetryableCtx :=
  ⟨604800⟩

end ArbOS

/-! ### Round-trip lemmas for the RLP model -/

namespace ArbOS

theorem decNat_encNat (n : Nat) (rest : List Nat) :
    decNat (encNat n ++ rest) = some (n, rest) := rfl

theorem decNat_encNat_nil (n : Nat) : decNat (encNat n) = some (n, []) := rfl

theorem decBytes_encBytes (b rest : List Nat) :
    decBytes (encBytes b ++ rest) = some (b, rest) := by
  simp [decBytes, encBytes, List.take_left, List.drop_left]

theorem decBytes_encBytes_nil (b : List Nat) :
    decBytes (encBytes b) = some (b, []) := by
  simpa using decBytes_encBytes b []

theorem decCount_encSeq {α : Type} (f : α → List Nat)
    (g : List Nat → Option (α × List Nat))
    (hf : ∀ x rest, g (f x ++ rest) = some (x, rest)) :
    ∀ (xs : List α) (rest : List Nat),
      decCount g xs.length (encSeq f xs ++ rest) = some (xs, rest) := by
  intro xs
  induction xs with
  | nil => intro rest; rfl
  | cons x xs ih =>
    intro rest
    simp [encSeq, decCount, List.append_assoc, hf, ih]

theorem decCounted_encCounted {α : Type} (f : α → List Nat)
    (g : List Nat → Option (α × List Nat))
    (hf : ∀ x rest, g (f x ++ rest) = some (x, rest))
    (xs : List α) (rest : List Nat) :
    decCounted g (encCounted f xs ++ rest) = some (xs, rest) := by
  simp [encCounted, decCounted, decCount_encSeq f g hf]

theorem decAccessEntry_encAccessEntry (e : AccessListEntry) (rest : List Nat) :
    decAccessEntry (encAccessEntry e ++ rest) = some (e, rest) := by
  simp [decAccessEntry, encAccessEntry, List.append_assoc, decBytes_encBytes,
    decCounted_encCounted encBytes decBytes decBytes_encBytes]

theorem decAccessList_encAccessList (al : List AccessListEntry) (rest : List Nat) :
    decCounted decAccessEntry (encCounted encAccessEntry al ++ rest) = some (al, rest) := by
  simp [decCounted_encCounted encAccessEntry decAccessEntry decAccessEntry_encAccessEntry]

theorem inverts_nat : Inverts encNat decNat :=
  decNat_encNat

theorem inverts_bytes : Inverts encBytes decBytes :=
  decBytes_encBytes

theorem inverts_counted {α : Type} {f : α → List Nat}
    {p : List Nat → Option (α × List Nat)} (h : Inverts f p) :
    Inverts (encCounted f) (decCounted p) :=
  decCounted_encCounted f p h

theorem inverts_accessEntry : Inverts encAccessEntry decAccessEntry :=
  decAccessEntry_encAccessEntry

theorem inverts_accessListSeq :
    Inverts (encCounted encAccessEntry) (decCounted decAccessEntry) :=
  inverts_counted inverts_accessEntry

theorem inverts_bytesSeq :
    Inverts (encCounted encBytes) (decCounted decBytes) :=
  inverts_counted inverts_bytes

theorem inverts_pair {α β : Type} {f : α → List Nat} {g : β → List Nat}
    {p : List Nat → Option (α × List Nat)}
    {q : List Nat → Option (β × List Nat)}
    (hf : Inverts f p) (hg : Inverts g q) :
    Inverts (encPair f g) (decPair p q) := by
  intro x rest
  obtain ⟨a, b⟩ := x
  have h1 := hf a (g b ++ rest)
  have h2 := hg b rest
  simp [encPair, decPair, List.append_assoc, h1, h2]

theorem inverts_accessListTxFields :
    Inverts encAccessListTxFields decAccessListTxFields :=
  inverts_pair inverts_nat (inverts_pair inverts_nat (inverts_pair inverts_nat
    (inverts_pair inverts_nat (inverts_pair inverts_bytes (inverts_pair
      inverts_nat (inverts_pair inverts_bytes (inverts_pair
        inverts_accessListSeq (inverts_pair inverts_nat (inverts_pair
          inverts_nat inverts_nat)))))))))

theorem rlpDecode_rlpEncode_accessList (t : AccessListTransaction) :
    rlpDecodeAccessListTx (rlpEncodeAccessListTx t) = some t := by
  have h := inverts_accessListTxFields (accessListTxToFields t) []
  rw [List.append_nil] at h
  unfold rlpDecodeAccessListTx rlpEncodeAccessListTx
  rw [h]
  rfl

theorem inverts_feeMarketTxFields :
    Inverts encFeeMarketTxFields decFeeMarketTxFields :=
  inverts_pair inverts_nat (inverts_pair inverts_nat (inverts_pair inverts_nat
    (inverts_pair inverts_nat (inverts_pair inverts_nat (inverts_pair
      inverts_bytes (inverts_pair inverts_nat (inverts_pair inverts_bytes
        (inverts_pair inverts_accessListSeq (inverts_pair inverts_nat
          (inverts_pair inverts_nat inverts_nat))))))))))

theorem rlpDecode_rlpEncode_feeMarket (t : FeeMarketTransaction) :
    rlpDecodeFeeMarketTx (rlpEncodeFeeMarketTx t) = some t := by
  have h := inverts_feeMarketTxFields (feeMarketTxToFields t) []
  rw [List.append_nil] at h
  unfold rlpDecodeFeeMarketTx rlpEncodeFeeMarketTx
  rw [h]
  rfl

theorem inverts_blobTxFields : Inverts encBlobTxFields decBlobTxFields :=
  inverts_pair inverts_nat (inverts_pair inverts_nat (inverts_pair inverts_nat
    (inverts_pair inverts_nat (inverts_pair inverts_nat (inverts_pair
      inverts_bytes (inverts_pair inverts_nat (inverts_pair inverts_bytes
        (inverts_pair inverts_accessListSeq (inverts_pair inverts_nat
          (inverts_pair inverts_bytesSeq (inverts_pair inverts_nat
            (inverts_pair inverts_nat inverts_nat))))))))))))

theorem rlpDecode_rlpEncode_blob (t : BlobTransaction) :
    rlpDecodeBlobTx (rlpEncodeBlobTx t) = some t := by
  have h := inverts_blobTxFields (blobTxToFields t) []
  rw [List.append_nil] at h
  unfold rlpDecodeBlobTx rlpEncodeBlobTx
  rw [h]
  rfl

theorem inverts_arbUnsignedTxFields :
    Inverts encArbUnsignedTxFields decArbUnsignedTxFields :=
  inverts_pair inverts_nat (inverts_pair inverts_bytes (inverts_pair
    inverts_nat (inverts_pair inverts_nat (inverts_pair inverts_nat
      (inverts_pair inverts_bytes (inverts_pair inverts_nat inverts_bytes))))))

theorem rlpDecode_rlpEncode_arbUnsigned (t : ArbitrumUnsignedTransaction) :
    rlpDecodeArbUnsignedTx (rlpEncodeArbUnsignedTx t) = some t := by
  have h := inverts_arbUnsignedTxFields (arbUnsignedTxToFields t) []
  rw [List.append_nil] at h
  unfold rlpDecodeArbUnsignedTx rlpEncodeArbUnsignedTx
  rw [h]
  rfl

theorem inverts_arbContractTxFields :
    Inverts encArbContractTxFields decArbContractTxFields :=
  inverts_pair inverts_nat (inverts_pair inverts_bytes (inverts_pair
    inverts_bytes (inverts_pair inverts_nat (inverts_pair inverts_nat
      (inverts_pair inverts_bytes (inverts_pair inverts_nat inverts_bytes))))))

theorem rlpDecode_rlpEncode_arbContract (t : ArbitrumContractTransaction) :
    rlpDecodeArbContractTx (rlpEncodeArbContractTx t) = some t := by
  have h := inverts_arbContractTxFields (arbContractTxToFields t) []
  rw [List.append_nil] at h
  unfold rlpDecodeArbContractTx rlpEncodeArbContractTx
  rw [h]
  rfl

theorem inverts_arbRetryTxFields :
    Inverts encArbRetryTxFields decArbRetryTxFields :=
  inverts_pair inverts_nat (inverts_pair inverts_nat (inverts_pair
    inverts_bytes (inverts_pair inverts_nat (inverts_pair inverts_nat
      (inverts_pair inverts_bytes (inverts_pair inverts_nat (inverts_pair
        inverts_bytes (inverts_pair inverts_nat (inverts_pair inverts_bytes
          (inverts_pair inverts_nat inverts_nat))))))))))

theorem rlpDecode_rlpEncode_arbRetry (t : ArbitrumRetryTransaction) :
    rlpDecodeArbRetryTx (rlpEncodeArbRetryTx t) = some t := by
  have h := inverts_arbRetryTxFields (arbRetryTxToFields t) []
  rw [List.append_nil] at h
  unfold rlpDecodeArbRetryTx rlpEncodeArbRetryTx
  rw [h]
  rfl

theorem inverts_arbSubmitRetryTxFields :
    Inverts encArbSubmitRetryTxFields decArbSubmitRetryTxFields :=
  inverts_pair inverts_nat (inverts_pair inverts_bytes (inverts_pair
    inverts_bytes (inverts_pair inverts_nat (inverts_pair inverts_nat
      (inverts_pair inverts_nat (inverts_pair inverts_nat (inverts_pair
        inverts_bytes (inverts_pair inverts_nat (inverts_pair inverts_bytes
          (inverts_pair inverts_nat (inverts_pair inverts_bytes
            inverts_bytes)))))))))))

theorem rlpDecode_rlpEncode_arbSubmitRetry (t : ArbitrumSubmitRetryTransaction) :
    rlpDecodeArbSubmitRetryTx (rlpEncodeArbSubmitRetryTx t) = some t := by
  have h := inverts_arbSubmitRetryTxFields (arbSubmitRetryTxToFields t) []
  rw [List.append_nil] at h
  unfold rlpDecodeArbSubmitRetryTx rlpEncodeArbSubmitRetryTx
  rw [h]
  rfl

theorem inverts_arbDepositTxFields :
    Inverts encArbDepositTxFields decArbDepositTxFields :=
  inverts_pair inverts_nat (inverts_pair inverts_bytes (inverts_pair
    inverts_bytes (inverts_pair inverts_bytes inverts_nat)))

theorem rlpDecode_rlpEncode_arbDeposit (t : ArbitrumDepositTransaction) :
    rlpDecodeArbDepositTx (rlpEncodeArbDepositTx t) = some t := by
  have h := inverts_arbDepositTxFields (arbDepositTxToFields t) []
  rw [List.append_nil] at h
  unfold rlpDecodeArbDepositTx rlpEncodeArbDepositTx
  rw [h]
  rfl

theorem inverts_arbInternalTxFields :
    Inverts encArbInternalTxFields decArbInternalTxFields :=
  inverts_pair inverts_nat inverts_bytes

theorem rlpDecode_rlpEncode_arbInternal (t : ArbitrumInternalTransaction) :
    rlpDecodeArbInternalTx (rlpEncodeArbInternalTx t) = some t := by
  have h := inverts_arbInternalTxFields (arbInternalTxToFields t) []
  rw [List.append_nil] at h
  unfold rlpDecodeArbInternalTx rlpEncodeArbInternalTx
  rw [h]
  rfl

end ArbOS

/-! ### Claim theorems -/

/-- C5: the six gas-pricing constants have exactly the literal values
21000, 16, 4, 32000, 2400 and 1900. -/
theorem gas_constants_literal :
    ArbOS.TX_BASE_COST = 21000 ∧
    ArbOS.TX_DATA_COST_PER_NON_ZERO = 16 ∧
    ArbOS.TX_DATA_COST_PER_ZERO = 4 ∧
    ArbOS.TX_CREATE_COST = 32000 ∧
    ArbOS.TX_ACCESS_LIST_ADDRESS_COST = 2400 ∧
    ArbOS.TX_ACCESS_LIST_STORAGE_KEY_COST = 1900 := by
  decide

/-- C6: the ten L1 message-type constants have exactly the fixed values
3, 6, 7, 8, 9, 10, 11, 12, 13 and 255, and are pairwise distinct. -/
theorem l1_message_type_constants :
    ArbOS.L1MessageType_L2Message = 3 ∧
    ArbOS.L1MessageType_EndOfBlock = 6 ∧
    ArbOS.L1MessageType_L2FundedByL1 = 7 ∧
    ArbOS.L1MessageType_RollupEvent = 8 ∧
    ArbOS.L1MessageType_SubmitRetryable = 9 ∧
    ArbOS.L1MessageType_BatchForGasEstimation = 10 ∧
    ArbOS.L1MessageType_Initialize = 11 ∧
    ArbOS.L1MessageType_EthDeposit = 12 ∧
    ArbOS.L1MessageType_BatchPostingReport = 13 ∧
    ArbOS.L1MessageType_Invalid = 255 ∧
    List.Nodup [ ArbOS.L1MessageType_L2Message, ArbOS.L1MessageType_EndOfBlock,
      ArbOS.L1MessageType_L2FundedByL1, ArbOS.L1MessageType_RollupEvent,
      ArbOS.L1MessageType_SubmitRetryable, ArbOS.L1MessageType_BatchForGasEstimation,
      ArbOS.L1MessageType_Initialize, ArbOS.L1MessageType_EthDeposit,
      ArbOS.L1MessageType_BatchPostingReport, ArbOS.L1MessageType_Invalid] := by
  decide

/-- C1: for every well-formed value of each of the nine non-legacy
transaction variants, `decode_transaction (encode_transaction tx)`
reconstructs `tx` exactly, for arbitrary field values (hence including
zero-length data, an empty access list and zero value). -/
theorem decode_encode_roundtrip :
    (∀ t : ArbOS.AccessListTransaction,
      ArbOS.decode_transaction (ArbOS.encode_transaction (.accessList t)) =
        .ok (.accessList t)) ∧
    (∀ t : ArbOS.FeeMarketTransaction,
      ArbOS.decode_transaction (ArbOS.encode_transaction (.feeMarket t)) =
        .ok (.feeMarket t)) ∧
    (∀ t : ArbOS.BlobTransaction,
      ArbOS.decode_transaction (ArbOS.encode_transaction (.blob t)) =
        .ok (.blob t)) ∧
    (∀ t : ArbOS.ArbitrumDepositTransaction,
      ArbOS.decode_transaction (ArbOS.encode_transaction (.arbDeposit t)) =
        .ok (.arbDeposit t)) ∧
    (∀ t : ArbOS.ArbitrumUnsignedTransaction,
      ArbOS.decode_transaction (ArbOS.encode_transaction (.arbUnsigned t)) =
        .ok (.arbUnsigned t)) ∧
    (∀ t : ArbOS.ArbitrumContractTransaction,
      ArbOS.decode_transaction (ArbOS.encode_transaction (.arbContract t)) =
        .ok (.arbContract t)) ∧
    (∀ t : ArbOS.ArbitrumRetryTransaction,
      ArbOS.decode_transaction (ArbOS.encode_transaction (.arbRetry t)) =
        .ok (.arbRetry t)) ∧
    (∀ t : ArbOS.ArbitrumSubmitRetryTransaction,
      ArbOS.decode_transaction (ArbOS.encode_transaction (.arbSubmitRetry t)) =
        .ok (.arbSubmitRetry t)) ∧
    (∀ t : ArbOS.ArbitrumInternalTransaction,
      ArbOS.decode_transaction (ArbOS.encode_transaction (.arbInternal t)) =
        .ok (.arbInternal t)) := by
  refine ⟨?_, ?_, ?_, ?_, ?_, ?_, ?_, ?_, ?_⟩ <;> intro t <;>
    simp [ArbOS.encode_transaction, ArbOS.decode_transaction, ArbOS.liftDecoded,
      ArbOS.rlpDecode_rlpEncode_accessList, ArbOS.rlpDecode_rlpEncode_feeMarket,
      ArbOS.rlpDecode_rlpEncode_blob, ArbOS.rlpDecode_rlpEncode_arbDeposit,
      ArbOS.rlpDecode_rlpEncode_arbUnsigned, ArbOS.rlpDecode_rlpEncode_arbContract,
      ArbOS.rlpDecode_rlpEncode_arbRetry, ArbOS.rlpDecode_rlpEncode_arbSubmitRetry,
      ArbOS.rlpDecode_rlpEncode_arbInternal]

/-- C2: decoding a byte string beginning with one of the nine known type
identifier bytes dispatches to exactly the RLP decoder of the corresponding
variant, and decoding a non-empty byte string with any other first byte fails
with the invalid-block error. -/
theorem decode_transaction_dispatch :
    (∀ rest : List Nat, ArbOS.decode_transaction (.bytes (0x01 :: rest)) =
      ArbOS.liftDecoded ArbOS.Transaction.accessList
        (ArbOS.rlpDecodeAccessListTx rest)) ∧
    (∀ rest : List Nat, ArbOS.decode_transaction (.bytes (0x02 :: rest)) =
      ArbOS.liftDecoded ArbOS.Transaction.feeMarket
        (ArbOS.rlpDecodeFeeMarketTx rest)) ∧
    (∀ rest : List Nat, ArbOS.decode_transaction (.bytes (0x03 :: rest)) =
      ArbOS.liftDecoded ArbOS.Transaction.blob (ArbOS.rlpDecodeBlobTx rest)) ∧
    (∀ rest : List Nat, ArbOS.decode_transaction (.bytes (0x64 :: rest)) =
      ArbOS.liftDecoded ArbOS.Transaction.arbDeposit
        (ArbOS.rlpDecodeArbDepositTx rest)) ∧
    (∀ rest : List Nat, ArbOS.decode_transaction (.bytes (0x65 :: rest)) =
      ArbOS.liftDecoded ArbOS.Transaction.arbUnsigned
        (ArbOS.rlpDecodeArbUnsignedTx rest)) ∧
    (∀ rest : List Nat, ArbOS.decode_transaction (.bytes (0x66 :: rest)) =
      ArbOS.liftDecoded ArbOS.Transaction.arbContract
        (ArbOS.rlpDecodeArbContractTx rest)) ∧
    (∀ rest : List Nat, ArbOS.decode_transaction (.bytes (0x68 :: rest)) =
      ArbOS.liftDecoded ArbOS.Transaction.arbRetry
        (ArbOS.rlpDecodeArbRetryTx rest)) ∧
    (∀ rest : List Nat, ArbOS.decode_transaction (.bytes (0x69 :: rest)) =
      ArbOS.liftDecoded ArbOS.Transaction.arbSubmitRetry
        (ArbOS.rlpDecodeArbSubmitRetryTx rest)) ∧
    (∀ rest : List Nat, ArbOS.decode_transaction (.bytes (0x6A :: rest)) =
      ArbOS.liftDecoded ArbOS.Transaction.arbInternal
        (ArbOS.rlpDecodeArbInternalTx rest)) ∧
    (∀ (b : Nat) (rest : List Nat),
      b ∉ ([0x01, 0x02, 0x03, 0x64, 0x65, 0x66, 0x68, 0x69, 0x6A] : List Nat) →
      ArbOS.decode_transaction (.bytes (b :: rest)) = .error .invalidBlock) := by
  refine ⟨?_, ?_, ?_, ?_, ?_, ?_, ?_, ?_, ?_, ?_⟩
  case _ => intro rest; simp [ArbOS.decode_transaction]
  case _ => intro rest; simp [ArbOS.decode_transaction]
  case _ => intro rest; simp [ArbOS.decode_transaction]
  case _ => intro rest; simp [ArbOS.decode_transaction]
  case _ => intro rest; simp [ArbOS.decode_transaction]
  case _ => intro rest; simp [ArbOS.decode_transaction]
  case _ => intro rest; simp [ArbOS.decode_transaction]
  case _ => intro rest; simp [ArbOS.decode_transaction]
  case _ => intro rest; simp [ArbOS.decode_transaction]
  case _ =>
    intro b rest hb
    simp only [List.mem_cons, List.not_mem_nil, or_false, not_or] at hb
    obtain ⟨h1, h2, h3, h4, h5, h6, h7, h8, h9⟩ := hb
    simp [ArbOS.decode_transaction, h1, h2, h3, h4, h5, h6, h7, h8, h9]

/-- Witness for C2: the out-of-table first byte 0x00 on a concrete input is
rejected with the invalid-block error. -/
theorem decode_transaction_dispatch_witness :
    ArbOS.decode_transaction (.bytes [0x00]) = .error .invalidBlock :=
  decode_transaction_dispatch.2.2.2.2.2.2.2.2.2 0 [] (by decide)

/-- C3: a legacy transaction encodes to itself and decodes to itself; the
legacy path never produces a type-identifier-prefixed byte string. -/
theorem legacy_identity (t : ArbOS.LegacyTransaction) :
    ArbOS.encode_transaction (.legacy t) = .legacy t ∧
    ArbOS.decode_transaction (.legacy t) = .ok (.legacy t) :=
  ⟨rfl, rfl⟩

/-- C4: `arb_block_hash` succeeds with the context's hash if and only if the
requested number lies in the 256-block lookback window
`current - 256 ≤ b < current`, and fails with the invalid-input error for
every block number outside it. -/
theorem arb_block_hash_window (evm : ArbOS.Evm) (block_number : Int) :
    ((evm.env.number : Int) - 256 ≤ block_number ∧
        block_number < (evm.env.number : Int) →
      ArbOS.arb_block_hash evm block_number =
        .ok (evm.env.block_hash block_number, evm)) ∧
    (block_number < (evm.env.number : Int) - 256 ∨
        (evm.env.number : Int) ≤ block_number →
      ArbOS.arb_block_hash evm block_number = .error .invalidInput) ∧
    (ArbOS.arb_block_hash evm block_number =
        .ok (evm.env.block_hash block_number, evm) ↔
      (evm.env.number : Int) - 256 ≤ block_number ∧
        block_number < (evm.env.number : Int)) := by
  have hin : (evm.env.number : Int) - 256 ≤ block_number ∧
      block_number < (evm.env.number : Int) →
      ArbOS.arb_block_hash evm block_number =
        .ok (evm.env.block_hash block_number, evm) := by
    intro h
    have hc : ¬(block_number ≥ (evm.env.number : Int) ∨
        block_number < (evm.env.number : Int) - 256) := by omega
    unfold ArbOS.arb_block_hash
    rw [if_neg hc]
  have hout : block_number < (evm.env.number : Int) - 256 ∨
      (evm.env.number : Int) ≤ block_number →
      ArbOS.arb_block_hash evm block_number = .error .invalidInput := by
    intro h
    have hc : block_number ≥ (evm.env.number : Int) ∨
        block_number < (evm.env.number : Int) - 256 := by omega
    unfold ArbOS.arb_block_hash
    rw [if_pos hc]
  refine ⟨hin, hout, ?_, hin⟩
  intro hok
  by_cases hc : (evm.env.number : Int) - 256 ≤ block_number ∧
      block_number < (evm.env.number : Int)
  · exact hc
  · rw [hout (by omega)] at hok
    simp at hok

/-- Witness for C4: with current block number 1000, lookups of 999 and 744
succeed and lookups of 1000, 1001 and 743 fail with the invalid-input
error. -/
theorem arb_block_hash_window_witness :
    ArbOS.arb_block_hash ArbOS.sampleEvm1000 999 = .ok ([], ArbOS.sampleEvm1000) ∧
    ArbOS.arb_block_hash ArbOS.sampleEvm1000 744 = .ok ([], ArbOS.sampleEvm1000) ∧
    ArbOS.arb_block_hash ArbOS.sampleEvm1000 1000 = .error .invalidInput ∧
    ArbOS.arb_block_hash ArbOS.sampleEvm1000 1001 = .error .invalidInput ∧
    ArbOS.arb_block_hash ArbOS.sampleEvm1000 743 = .error .invalidInput := by
  refine ⟨?_, ?_, ?_, ?_, ?_⟩
  · exact (arb_block_hash_window ArbOS.sampleEvm1000 999).1 (by decide)
  · exact (arb_block_hash_window ArbOS.sampleEvm1000 744).1 (by decide)
  · exact (arb_block_hash_window ArbOS.sampleEvm1000 1000).2.1 (by decide)
  · exact (arb_block_hash_window ArbOS.sampleEvm1000 1001).2.1 (by decide)
  · exact (arb_block_hash_window ArbOS.sampleEvm1000 743).2.1 (by decide)

/-- C7: for an outstanding ticket with a non-empty stored payload and a
positive default lifetime, each `keep_alive` call strictly increases the
stored expiry by exactly one default-lifetime period — two successive calls
each add one period — and `keep_alive` on an absent ticket id fails with the
not-found error. -/
theorem keep_alive_monotonic (ctx : ArbOS.RetryableCtx)
    (store : ArbOS.Hash32 → Option ArbOS.RetryableTicket)
    (ticket_id : ArbOS.Hash32) :
    (store ticket_id = none →
      ArbOS.keep_alive ctx store ticket_id = .error .notFound) ∧
    (∀ t : ArbOS.RetryableTicket, store ticket_id = some t →
      t.payload.length ≠ 0 → 0 < ctx.lifetime →
      ∃ store2,
        ArbOS.keep_alive ctx store ticket_id =
          .ok (t.timeout + ArbOS.get_lifetime ctx, store2) ∧
        store2 ticket_id =
          some ⟨t.payload, t.timeout + ArbOS.get_lifetime ctx, t.beneficiary⟩ ∧
        t.timeout < t.timeout + ArbOS.get_lifetime ctx ∧
        ∃ store3,
          ArbOS.keep_alive ctx store2 ticket_id =
            .ok (t.timeout + ArbOS.get_lifetime ctx + ArbOS.get_lifetime ctx,
              store3) ∧
          store3 ticket_id =
            some ⟨t.payload,
              t.timeout + ArbOS.get_lifetime ctx + ArbOS.get_lifetime ctx,
              t.beneficiary⟩ ∧
          t.timeout + ArbOS.get_lifetime ctx <
            t.timeout + ArbOS.get_lifetime ctx + ArbOS.get_lifetime ctx) := by
  constructor
  · intro h
    simp [ArbOS.keep_alive, h]
  · intro t hfound hsz hpos
    have hlt : 0 < ArbOS.get_lifetime ctx := hpos
    refine ⟨fun i => if i = ticket_id then
        some ⟨t.payload, t.timeout + ArbOS.get_lifetime ctx, t.beneficiary⟩
      else store i, ?_, ?_, ?_, ?_⟩
    · simp [ArbOS.keep_alive, hfound, hsz]
    · simp
    · exact lt_add_of_pos_right t.timeout hlt
    · refine ⟨fun i => if i = ticket_id then
          some ⟨t.payload,
            t.timeout + ArbOS.get_lifetime ctx + ArbOS.get_lifetime ctx,
            t.beneficiary⟩
        else if i = ticket_id then
          some ⟨t.payload, t.timeout + ArbOS.get_lifetime ctx, t.beneficiary⟩
        else store i, ?_, ?_, ?_⟩
      · simp [ArbOS.keep_alive, hsz]
      · simp
      · exact lt_add_of_pos_right (t.timeout + ArbOS.get_lifetime ctx) hlt

/-- Witness for C7: on the sample store, renewing ticket `[7]` once yields
expiry 100 + 604800, and renewing an absent id fails with not-found. -/
theorem keep_alive_monotonic_witness :
    ArbOS.sampleStore [7] = some ArbOS.sampleTicket ∧
    0 < ArbOS.sampleCtx.lifetime ∧
    (∃ store2, ArbOS.keep_alive ArbOS.sampleCtx ArbOS.sampleStore [7] =
      .ok (100 + 604800, store2)) ∧
    ArbOS.keep_alive ArbOS.sampleCtx ArbOS.sampleStore [8] =
      .error .notFound := by
  refine ⟨by decide, by decide, ?_, ?_⟩
  · obtain ⟨s2, h1, -, -, -⟩ :=
      (keep_alive_monotonic ArbOS.sampleCtx ArbOS.sampleStore [7]).2
        ArbOS.sampleTicket (by decide) (by decide) (by decide)
    exact ⟨s2, h1⟩
  · exact (keep_alive_monotonic ArbOS.sampleCtx ArbOS.sampleStore [8]).1
      (by decide)

/-- C8: the four system-information operations are pure reads: each returns
the corresponding value held by the execution context and hands back the
context unchanged (for `arb_block_hash`, either the context's hash with the
unchanged context, or the invalid-input error). -/
theorem sys_info_pure_reads (evm : ArbOS.Evm) (block_number : Int) :
    ArbOS.arb_block_number evm = (evm.env.number, evm) ∧
    ArbOS.arb_chain_id evm = (evm.env.chain_id, evm) ∧
    ArbOS.arb_version evm = (evm.env.arb_version, evm) ∧
    (ArbOS.arb_block_hash evm block_number =
        .ok (evm.env.block_hash block_number, evm) ∨
      ArbOS.arb_block_hash evm block_number = .error .invalidInput) := by
  refine ⟨rfl, rfl, rfl, ?_⟩
  by_cases h : block_number ≥ (evm.env.number : Int) ∨
      block_number < (evm.env.number : Int) - 256
  · right
    unfold ArbOS.arb_block_hash
    rw [if_pos h]
  · left
    unfold ArbOS.arb_block_hash
    rw [if_neg h]

/-- C9: a runtime value outside the closed ten-variant sum type makes
`encode_transaction` fail with the unsupported-transaction-type error, while
every value of the ten declared variants is encoded successfully, so the
failure branch is unreachable for them. -/
theorem encode_unsupported_type :
    ArbOS.encode_transaction_py .nonTransactionValue =
      .error .unsupportedTransactionType ∧
    ∀ t : ArbOS.Transaction,
      ArbOS.encode_transaction_py (.tx t) = .ok (ArbOS.encode_transaction t) :=
  ⟨rfl, fun _ => rfl⟩

/-- C10: decoding the empty byte string hits the unguarded `tx[0]` and fails
with the out-of-bounds indexing error, which is distinct from the
invalid-block error used for unknown first bytes. -/
theorem decode_empty_bytes :
    ArbOS.decode_transaction (.bytes []) = .error .indexOutOfRange ∧
    ArbOS.DecodeErrorKind.indexOutOfRange ≠ ArbOS.DecodeErrorKind.invalidBlock :=
  ⟨rfl, by decide⟩
